import Mathlib

/-!
Shallow embedding of `aranet4-cli` (`src/lib.rs`).

The library scans for Aranet4 BLE devices, filters them by the advertised
service UUID, connects to each, and decodes a 13-byte payload plus a set of
standard device-information characteristics.

Modelling conventions:
- 128-bit UUIDs are natural numbers (the full 128-bit value of the constant).
- `anyhow` transport errors are opaque `Nat` tokens.
- `f32` arithmetic (`raw as f32 / 20.0`, `raw as f32 / 10.0`) is modelled over
  `ℚ`; the dividends and divisors involved are small integers, so the rational
  value is the exact mathematical quotient the source computes.
- `std::time::Duration::from_secs n` is modelled as the number `n` of seconds.
- A computation that Rust would abort by `panic` (an `unwrap` of `None`/`Err`,
  or an out-of-range slice index) is modelled by the distinguished outcome
  `Outcome.panicked`, kept separate from a returned `Err` value.
- The BLE adapter, peripherals and the discovery-event stream are external
  collaborators; they are modelled by an explicit environment record whose
  fields give the result of each adapter/peripheral call.  The environment
  field `eventList` lists the discovery events that the stream delivers
  strictly before the absolute deadline `now + timeout`; the first poll after
  that list is exhausted observes either the elapsed deadline
  (`tokio::time::timeout_at` fails) or the end of the stream, and both leave
  the `while let Ok(Some(event))` loop.
-/

namespace Aranet4

/-- BLE UUIDs (128-bit) are modelled as natural numbers. -/
abbrev Uuid := Nat

/-- `uuid!("0000fce0-0000-1000-8000-00805f9b34fb")`. -/
def ARANET4_SERVICE : Uuid := 0x0000fce000001000800000805f9b34fb

/-- `uuid!("f0cd3001-95da-4f4b-9ac8-aa55d312af0c")`. -/
def ARANET4_CHARACTERISTIC : Uuid := 0xf0cd300195da4f4b9ac8aa55d312af0c

/-- `uuid!("00002a24-0000-1000-8000-00805f9b34fb")`. -/
def BLUETOOTH_MODEL_NUMBER_CHARACTERISTIC : Uuid := 0x00002a2400001000800000805f9b34fb

/-- `uuid!("00002a25-0000-1000-8000-00805f9b34fb")`. -/
def BLUETOOTH_SERIAL_NUMBER_CHARACTERISTIC : Uuid := 0x00002a2500001000800000805f9b34fb

/-- `uuid!("00002a26-0000-1000-8000-00805f9b34fb")`. -/
def BLUETOOTH_FIRMWARE_REVISION_CHARACTERISTIC : Uuid := 0x00002a2600001000800000805f9b34fb

/-- `uuid!("00002a27-0000-1000-8000-00805f9b34fb")`. -/
def BLUETOOTH_HARDWARE_REVISION_CHARACTERISTIC : Uuid := 0x00002a2700001000800000805f9b34fb

/-- `uuid!("00002a28-0000-1000-8000-00805f9b34fb")`. -/
def BLUETOOTH_SOFTWARE_REVISION_CHARACTERISTIC : Uuid := 0x00002a2800001000800000805f9b34fb

/-- `uuid!("00002a29-0000-1000-8000-00805f9b34fb")`. -/
def BLUETOOTH_MANUFACTURER_NAME_CHARACTERISTIC : Uuid := 0x00002a2900001000800000805f9b34fb

/-- `pub enum Status { GREEN = 1, AMBER = 2, RED = 3 }`. -/
inductive Status where
  | GREEN
  | AMBER
  | RED
deriving DecidableEq

/-- The discriminant of the Rust enum (`Status::GREEN as u8`, ...). -/
def Status.toU8 : Status → Nat
  | .GREEN => 1
  | .AMBER => 2
  | .RED => 3

/-- `impl TryFrom<u8> for Status` (`type Error = ()`): guards compare the byte
against each discriminant in the order GREEN, AMBER, RED; any other value is
`Err(())`. -/
def Status.tryFrom (value : Nat) : Except Unit Status :=
  if value = Status.GREEN.toU8 then .ok .GREEN
  else if value = Status.AMBER.toU8 then .ok .AMBER
  else if value = Status.RED.toU8 then .ok .RED
  else .error ()

/-- `pub struct Data`.  `co2`, `humidity`, `battery` are the `u16`/`u8` raw
values; `temperature` and `pressure` carry the exact value of the `f32`
quotient; `interval` and `ago` are `Duration`s held as whole seconds. -/
structure Data where
  co2 : Nat
  temperature : ℚ
  pressure : ℚ
  humidity : Nat
  battery : Nat
  status : Status
  interval : Nat
  ago : Nat
deriving DecidableEq

/-- Outcome of a fallible Rust computation: a returned value, a propagated
`anyhow` error (opaque `Nat` token), or an aborting `panic` (an `unwrap` of
`None`/`Err`, or an out-of-range slice index).  A `panic` never returns, so it
is distinct from both `ok` and `err`. -/
inductive Outcome (α : Type) where
  | ok (a : α)
  | err (e : Nat)
  | panicked
deriving DecidableEq

/-- `u16::from_le_bytes([b0, b1])`: little-endian reconstruction from two
bytes (each reduced mod 256, the `u8` range). -/
def u16_from_le_bytes (b0 b1 : Nat) : Nat := b0 % 256 + 256 * (b1 % 256)

/-- Pure tail of `get_data`, applied to the bytes `res` returned by
`device.read(data_char)`.  The source slices `res[0..2]`, `res[2..4]`,
`res[4..6]`, `res[6]`, `res[7]`, `res[8]`, `res[9..11]`, `res[11..13]` with no
length check; Rust range indexing on fewer than 13 bytes panics at the first
out-of-range slice, so every input shorter than 13 bytes is `panicked` here.
The status byte goes through `Status::try_from(..).unwrap()`, which panics on
a byte outside 1..3. -/
def decode_data (res : List Nat) : Outcome Data :=
  if 13 ≤ res.length then
    match Status.tryFrom (res.getD 8 0 % 256) with
    | .error _ => .panicked
    | .ok st =>
      .ok { co2 := u16_from_le_bytes (res.getD 0 0) (res.getD 1 0),
            temperature := (u16_from_le_bytes (res.getD 2 0) (res.getD 3 0) : ℚ) / 20,
            pressure := (u16_from_le_bytes (res.getD 4 0) (res.getD 5 0) : ℚ) / 10,
            humidity := res.getD 6 0 % 256,
            battery := res.getD 7 0 % 256,
            status := st,
            interval := u16_from_le_bytes (res.getD 9 0) (res.getD 10 0),
            ago := u16_from_le_bytes (res.getD 11 0) (res.getD 12 0) }
  else .panicked

/-- `pub struct Info` (all fields `Option<String>`, `#[derive(Default)]`).
Each populated field holds `String::from_utf8_lossy` of the bytes read from
the matching characteristic; the lossy UTF-8 transcode only re-encodes the
text and never affects whether a field is present, so the field carries the
raw bytes here. -/
structure Info where
  model_number : Option (List Nat) := none
  serial_number : Option (List Nat) := none
  firmware_revision : Option (List Nat) := none
  hardware_revision : Option (List Nat) := none
  software_revision : Option (List Nat) := none
  manufacturer_name : Option (List Nat) := none
deriving DecidableEq

/-- The subset of `btleplug`'s `PeripheralProperties` the source uses:
`local_name` and `services`. -/
structure Props where
  local_name : Option String
  services : List Uuid
deriving DecidableEq

/-- Behaviour of one peripheral (the `btleplug` `Peripheral` collaborator).
`props` is the result of `device.properties()` (a `Result<Option<_>>`);
`connect` of `device.connect()`; `discover_services` of
`device.discover_services()`; `characteristics` the UUIDs returned by
`device.characteristics()`; `read u` the result of reading the characteristic
with UUID `u`.  The collaborator is deterministic: repeated calls return the
same value. -/
structure PeripheralEnv where
  address : Nat
  props : Except Nat (Option Props)
  connect : Except Nat Unit
  discover_services : Except Nat Unit
  characteristics : List Uuid
  read : Uuid → Except Nat (List Nat)

/-- `pub struct Device`. -/
structure Device where
  name : String
  address : Nat
  data : Data
  info : Info
deriving DecidableEq

/-- `get_name`: `device.properties().await?.unwrap()` then
`properties.local_name.unwrap()` — an `Err` from `properties` propagates, a
missing properties record or a missing local name panics. -/
def get_name (p : PeripheralEnv) : Outcome String :=
  match p.props with
  | .error e => .err e
  | .ok none => .panicked
  | .ok (some pr) =>
    match pr.local_name with
    | none => .panicked
    | some n => .ok n

/-- `get_services`: `device.properties().await?.unwrap()` then
`properties.services`. -/
def get_services (p : PeripheralEnv) : Outcome (List Uuid) :=
  match p.props with
  | .error e => .err e
  | .ok none => .panicked
  | .ok (some pr) => .ok pr.services

/-- `get_data`: find the Aranet4 data characteristic
(`find(..).unwrap()` — panics when absent), `device.read(data_char).await?`,
then decode the payload (see `decode_data`). -/
def get_data (p : PeripheralEnv) : Outcome Data :=
  if ARANET4_CHARACTERISTIC ∈ p.characteristics then
    match p.read ARANET4_CHARACTERISTIC with
    | .error e => .err e
    | .ok res => decode_data res
  else .panicked

/-- Loop body of `get_info`: iterate over the characteristics; for each of the
six recognized device-information UUIDs, read the characteristic
(`device.read(..).await?`) and store its text in the matching field; every
other UUID falls into the `_ => {}` arm and is skipped. -/
def get_info_go (p : PeripheralEnv) : List Uuid → Info → Except Nat Info
  | [], info => .ok info
  | u :: rest, info =>
    if u = BLUETOOTH_MODEL_NUMBER_CHARACTERISTIC then
      match p.read u with
      | .error e => .error e
      | .ok res => get_info_go p rest { info with model_number := some res }
    else if u = BLUETOOTH_SERIAL_NUMBER_CHARACTERISTIC then
      match p.read u with
      | .error e => .error e
      | .ok res => get_info_go p rest { info with serial_number := some res }
    else if u = BLUETOOTH_FIRMWARE_REVISION_CHARACTERISTIC then
      match p.read u with
      | .error e => .error e
      | .ok res => get_info_go p rest { info with firmware_revision := some res }
    else if u = BLUETOOTH_HARDWARE_REVISION_CHARACTERISTIC then
      match p.read u with
      | .error e => .error e
      | .ok res => get_info_go p rest { info with hardware_revision := some res }
    else if u = BLUETOOTH_SOFTWARE_REVISION_CHARACTERISTIC then
      match p.read u with
      | .error e => .error e
      | .ok res => get_info_go p rest { info with software_revision := some res }
    else if u = BLUETOOTH_MANUFACTURER_NAME_CHARACTERISTIC then
      match p.read u with
      | .error e => .error e
      | .ok res => get_info_go p rest { info with manufacturer_name := some res }
    else
      get_info_go p rest info

/-- `get_info`: start from `Info::default()` (all fields `None`) and run the
characteristic loop. -/
def get_info (p : PeripheralEnv) : Except Nat Info :=
  get_info_go p p.characteristics {}

/-- `get_device`: `connect().await?`, `discover_services().await?`, then build
the `Device` record; the struct literal evaluates `get_name`, `address`,
`get_data`, `get_info` in that order, each `?` propagating its error. -/
def get_device (p : PeripheralEnv) : Outcome Device :=
  match p.connect with
  | .error e => .err e
  | .ok _ =>
    match p.discover_services with
    | .error e => .err e
    | .ok _ =>
      match get_name p with
      | .err e => .err e
      | .panicked => .panicked
      | .ok nm =>
        match get_data p with
        | .err e => .err e
        | .panicked => .panicked
        | .ok data =>
          match get_info p with
          | .error e => .err e
          | .ok info => .ok { name := nm, address := p.address, data := data, info := info }

/-- `btleplug::api::CentralEvent`: the scan loop only acts on
`DeviceDiscovered(id)`; every other event kind falls through the
`if let` and is ignored. -/
inductive CentralEvent where
  | deviceDiscovered (id : Nat)
  | other
deriving DecidableEq

/-- Adapter calls the scan controller issues that matter for the cleanup and
short-circuit properties. -/
inductive Call where
  | startScan
  | stopScan
deriving DecidableEq

/-- Environment of one `get_devices` invocation: results of the adapter-level
calls, the behaviour of each peripheral (keyed by the discovery-event id), and
the list of discovery events the stream delivers before the absolute deadline
`now + timeout` (in arrival order).  After `eventList` is exhausted the next
poll observes the elapsed deadline or the end of the stream. -/
structure Env where
  managerNew : Except Nat Unit
  adapters : Except Nat (List Unit)
  startScan : Except Nat Unit
  events : Except Nat Unit
  eventList : List CentralEvent
  peripheral : Nat → Except Nat PeripheralEnv
  stopScan : Except Nat Unit

/-- The early-return guard `!max_devices.map(|m| devices.len() < m).unwrap_or(true)`:
`true` means return the accumulated devices now. -/
def cap_reached (max_devices : Option Nat) (len : Nat) : Bool :=
  !((max_devices.map (fun m => decide (len < m))).getD true)

/-- The `while let Ok(Some(event)) = timeout_at(..) ...` loop of `get_devices`.
An exhausted event list is the deadline/stream-end exit: `stop_scan().await?`
then `Ok(devices)`.  A `DeviceDiscovered` event resolves the peripheral
(`central.peripheral(&id).await.unwrap()` — panics on `Err`), checks the
advertised services (the `ScanFilter` is best effort, so a device without the
Aranet4 service is skipped with `continue`), assembles the device, and returns
early — without stopping the scan — when the new length reaches the cap. -/
def scan_loop (env : Env) (max_devices : Option Nat) :
    List CentralEvent → List Device → Outcome (List Device) × List Call
  | [], devices =>
    (match env.stopScan with
     | .error e => (.err e, [Call.stopScan])
     | .ok _ => (.ok devices, [Call.stopScan]))
  | CentralEvent.other :: rest, devices => scan_loop env max_devices rest devices
  | CentralEvent.deviceDiscovered i :: rest, devices =>
    match env.peripheral i with
    | .error _ => (.panicked, [])
    | .ok p =>
      match get_services p with
      | .err e => (.err e, [])
      | .panicked => (.panicked, [])
      | .ok services =>
        if ARANET4_SERVICE ∈ services then
          match get_device p with
          | .err e => (.err e, [])
          | .panicked => (.panicked, [])
          | .ok d =>
            let devices2 := devices ++ [d]
            if cap_reached max_devices devices2.length then (.ok devices2, [])
            else scan_loop env max_devices rest devices2
        else scan_loop env max_devices rest devices

/-- `pub async fn get_devices(max_devices, timeout)`.  In source order:
`Manager::new().await.unwrap()`; `manager.adapters().await?`;
`adapters.into_iter().next().unwrap()` (panics on an empty adapter list);
`central.start_scan(filter).await?`; `central.events().await?`; the
`max_devices` early-return check on the still-empty `devices` vector; then the
event loop (`scan_loop`).  The second component records the `start_scan` /
`stop_scan` calls issued, in order. -/
def get_devices (env : Env) (max_devices : Option Nat) :
    Outcome (List Device) × List Call :=
  match env.managerNew with
  | .error _ => (.panicked, [])
  | .ok _ =>
    match env.adapters with
    | .error e => (.err e, [])
    | .ok adapters =>
      match adapters with
      | [] => (.panicked, [])
      | _ :: _ =>
        match env.startScan with
        | .error e => (.err e, [Call.startScan])
        | .ok _ =>
          match env.events with
          | .error e => (.err e, [Call.startScan])
          | .ok _ =>
            if cap_reached max_devices 0 then (.ok [], [Call.startScan])
            else
              let res := scan_loop env max_devices env.eventList []
              (res.1, Call.startScan :: res.2)

/-- `true` on the `ok` outcome, `false` on `err` and on `panicked`. -/
def Outcome.isOk {α : Type} : Outcome α → Bool
  | .ok _ => true
  | .err _ => false
  | .panicked => false

/-- The six device-information UUIDs the `get_info` loop recognizes. -/
def info_recognized (u : Uuid) : Bool :=
  decide (u = BLUETOOTH_MODEL_NUMBER_CHARACTERISTIC) ||
  decide (u = BLUETOOTH_SERIAL_NUMBER_CHARACTERISTIC) ||
  decide (u = BLUETOOTH_FIRMWARE_REVISION_CHARACTERISTIC) ||
  decide (u = BLUETOOTH_HARDWARE_REVISION_CHARACTERISTIC) ||
  decide (u = BLUETOOTH_SOFTWARE_REVISION_CHARACTERISTIC) ||
  decide (u = BLUETOOTH_MANUFACTURER_NAME_CHARACTERISTIC)

/-- A well-formed 13-byte Aranet4 payload (the worked example from the spec). -/
def goodPayload : List Nat :=
  [0xD2, 0x02, 0x58, 0x02, 0x50, 0x03, 0x28, 0x64, 0x01, 0x3C, 0x00, 0x05, 0x00]

/-- The reading `goodPayload` decodes to. -/
def goodData : Data :=
  { co2 := 722, temperature := (600 : ℚ) / 20, pressure := (848 : ℚ) / 10, humidity := 40,
    battery := 100, status := .GREEN, interval := 60, ago := 5 }

/-- Properties of a well-behaved Aranet4 peripheral. -/
def goodProps : Props :=
  { local_name := some "Aranet4 00000", services := [ARANET4_SERVICE] }

/-- A well-behaved Aranet4 peripheral: every adapter call succeeds, the
Aranet4 service is advertised, and the data characteristic returns
`goodPayload`. -/
def goodPeripheral : PeripheralEnv :=
  { address := 1,
    props := .ok (some goodProps),
    connect := .ok (),
    discover_services := .ok (),
    characteristics := [ARANET4_CHARACTERISTIC],
    read := fun _ => .ok goodPayload }

/-- The `Device` record assembled from `goodPeripheral`. -/
def goodDevice : Device :=
  { name := "Aranet4 00000", address := 1, data := goodData, info := {} }

/-- An environment in which every adapter call succeeds and every discovered
id resolves to `goodPeripheral`; `evs` is the list of discovery events
delivered before the deadline. -/
def goodEnv (evs : List CentralEvent) : Env :=
  { managerNew := .ok (), adapters := .ok [()], startScan := .ok (), events := .ok (),
    eventList := evs, peripheral := fun _ => .ok goodPeripheral, stopScan := .ok () }

/-- An environment whose adapter enumeration succeeds with no adapters. -/
def noAdapterEnv : Env := { goodEnv [] with adapters := .ok [] }

/-- An environment whose adapter enumeration itself fails. -/
def adapterErrEnv : Env := { goodEnv [] with adapters := .error 7 }

/-- An environment in which `start_scan` fails. -/
def startErrEnv : Env := { goodEnv [] with startScan := .error 2 }

/-- A peripheral that advertises the Aranet4 service but exposes no
data characteristic. -/
def noDataCharPeripheral : PeripheralEnv := { goodPeripheral with characteristics := [] }

/-- An environment that discovers one device advertising the Aranet4 service
but lacking the data characteristic. -/
def noDataCharEnv : Env :=
  { goodEnv [CentralEvent.deviceDiscovered 0] with peripheral := fun _ => .ok noDataCharPeripheral }

/-- A peripheral whose `connect` fails at the transport layer. -/
def connectErrPeripheral : PeripheralEnv := { goodPeripheral with connect := .error 3 }

/-- A peripheral whose data-characteristic read fails at the transport layer. -/
def readErrPeripheral : PeripheralEnv := { goodPeripheral with read := fun _ => .error 4 }

/-- An environment that discovers a good device first and then a device whose
`connect` fails. -/
def twoEventEnv : Env :=
  { goodEnv [CentralEvent.deviceDiscovered 0, CentralEvent.deviceDiscovered 1] with
    peripheral := fun n => if n = 0 then .ok goodPeripheral else .ok connectErrPeripheral }

/-- A peripheral exposing two of the six device-information characteristics
(and nothing else), whose reads all succeed. -/
def infoPeripheral : PeripheralEnv :=
  { address := 2,
    props := .ok (some goodProps),
    connect := .ok (),
    discover_services := .ok (),
    characteristics := [BLUETOOTH_SERIAL_NUMBER_CHARACTERISTIC,
      BLUETOOTH_FIRMWARE_REVISION_CHARACTERISTIC],
    read := fun _ => .ok [65, 66] }

/-! ## Helper lemmas -/

theorem cap_reached_true {c n : Nat} (h : c ≤ n) : cap_reached (some c) n = true := by
  simp [cap_reached, Nat.not_lt.mpr h]

theorem cap_reached_false {c n : Nat} (h : n < c) : cap_reached (some c) n = false := by
  simp [cap_reached, h]

theorem cap_reached_none (n : Nat) : cap_reached none n = false := by
  simp [cap_reached]

/-! ## Payload decoder claims -/

/-- Claim C3, counterexample: on the empty input buffer (shorter than 13
bytes) the decoder panics (out-of-range slice index); it does not return a
`TruncatedPayload` error value — no error path for short input exists in the
source. -/
theorem decode_data_truncated_cex : decode_data [] = Outcome.panicked := by decide

/-- Claim C3, amended: for every input buffer shorter than 13 bytes the
payload decoder panics (Rust range indexing on the fixed slices is out of
range), so it never produces a `Data` value, partially populated or
otherwise — but it panics rather than returning an error. -/
theorem decode_data_truncated_panics (res : List Nat) (h : res.length < 13) :
    decode_data res = Outcome.panicked := by
  unfold decode_data
  rw [if_neg (by omega)]

/-- Witness for `decode_data_truncated_panics` at a 12-byte buffer. -/
theorem decode_data_truncated_panics_witness :
    (List.replicate 12 (0 : Nat)).length < 13 ∧
      decode_data (List.replicate 12 (0 : Nat)) = Outcome.panicked :=
  ⟨by decide, decode_data_truncated_panics _ (by decide)⟩

/-- Claim C4: the worked example payload decodes to co2 722 ppm, temperature
30 °C (raw 600 divided by 20), pressure 84.8 hPa (raw 848 divided by 10),
humidity 40 %, battery 100 %, status GREEN, interval 60 s, age 5 s. -/
theorem decode_data_example :
    decode_data [0xD2, 0x02, 0x58, 0x02, 0x50, 0x03, 0x28, 0x64, 0x01, 0x3C, 0x00, 0x05, 0x00] =
      Outcome.ok { co2 := 722, temperature := 30, pressure := 848 / 10, humidity := 40,
                   battery := 100, status := .GREEN, interval := 60, ago := 5 } := by
  have h : decode_data [0xD2, 0x02, 0x58, 0x02, 0x50, 0x03, 0x28, 0x64, 0x01, 0x3C, 0x00,
      0x05, 0x00] = Outcome.ok goodData := rfl
  rw [h]
  norm_num [goodData]

/-- Claim C5, counterexample: a 13-byte payload whose status byte (offset 8)
is 0 makes the decoder panic (`try_into().unwrap()` on `Err`); it does not
produce an `InvalidStatus` error value. -/
theorem decode_data_bad_status_cex :
    decode_data [0xD2, 0x02, 0x58, 0x02, 0x50, 0x03, 0x28, 0x64, 0x00, 0x3C, 0x00, 0x05, 0x00] =
      Outcome.panicked := by decide

/-- Claim C5, amended: `Status::try_from` maps bytes 1, 2, 3 to GREEN, AMBER,
RED and fails with `Err(())` on every other byte, substituting no default
variant; but when the out-of-range byte sits at offset 8 of a payload handed
to the decoder, the decoder panics (`unwrap` of the failed conversion) instead
of returning an error. -/
theorem status_tryFrom_spec :
    Status.tryFrom 1 = .ok .GREEN ∧ Status.tryFrom 2 = .ok .AMBER ∧
    Status.tryFrom 3 = .ok .RED ∧
    (∀ b : Nat, b ≠ 1 → b ≠ 2 → b ≠ 3 → Status.tryFrom b = .error ()) ∧
    (∀ res : List Nat, 13 ≤ res.length →
      res.getD 8 0 % 256 ≠ 1 → res.getD 8 0 % 256 ≠ 2 → res.getD 8 0 % 256 ≠ 3 →
      decode_data res = Outcome.panicked) := by
  refine ⟨rfl, rfl, rfl, ?_, ?_⟩
  · intro b h1 h2 h3
    simp [Status.tryFrom, Status.toU8, h1, h2, h3]
  · intro res hlen h1 h2 h3
    have herr : Status.tryFrom (res.getD 8 0 % 256) = .error () := by
      unfold Status.tryFrom
      simp only [Status.toU8]
      rw [if_neg h1, if_neg h2, if_neg h3]
    unfold decode_data
    rw [if_pos hlen, herr]

/-- Witness for `status_tryFrom_spec`: bytes 0 and 4 are rejected, and a
payload with status byte 4 makes the decoder panic. -/
theorem status_tryFrom_spec_witness :
    Status.tryFrom 0 = .error () ∧ Status.tryFrom 4 = .error () ∧
      decode_data [0xD2, 0x02, 0x58, 0x02, 0x50, 0x03, 0x28, 0x64, 0x04, 0x3C, 0x00,
        0x05, 0x00] = Outcome.panicked :=
  ⟨status_tryFrom_spec.2.2.2.1 0 (by decide) (by decide) (by decide),
   status_tryFrom_spec.2.2.2.1 4 (by decide) (by decide) (by decide),
   status_tryFrom_spec.2.2.2.2 _ (by decide) (by decide) (by decide) (by decide)⟩

/-- Claim C10: a buffer of 13 bytes whose status byte is 1, 2 or 3 decodes
successfully, and appending any extra bytes past index 12 is accepted and
yields the same result as the 13-byte prefix alone — the decoder reads only
offsets 0 through 12. -/
theorem decode_data_extra_bytes (bs extra : List Nat) (hlen : bs.length = 13)
    (hst : bs.getD 8 0 % 256 = 1 ∨ bs.getD 8 0 % 256 = 2 ∨ bs.getD 8 0 % 256 = 3) :
    (decode_data bs).isOk = true ∧ decode_data (bs ++ extra) = decode_data bs := by
  have hb : (13 : Nat) ≤ bs.length := hlen.ge
  have hba : (13 : Nat) ≤ (bs ++ extra).length := by
    rw [List.length_append]; omega
  have hg : ∀ n, n < 13 → (bs ++ extra).getD n 0 = bs.getD n 0 := by
    intro n hn
    exact List.getD_append _ _ _ _ (by omega)
  constructor
  · obtain ⟨st, hok⟩ : ∃ st, Status.tryFrom (bs.getD 8 0 % 256) = .ok st := by
      rcases hst with h | h | h <;> rw [h] <;> exact ⟨_, rfl⟩
    unfold decode_data
    rw [if_pos hb, hok]
    rfl
  · unfold decode_data
    rw [if_pos hb, if_pos hba, hg 0 (by norm_num), hg 1 (by norm_num), hg 2 (by norm_num),
      hg 3 (by norm_num), hg 4 (by norm_num), hg 5 (by norm_num), hg 6 (by norm_num),
      hg 7 (by norm_num), hg 8 (by norm_num), hg 9 (by norm_num), hg 10 (by norm_num),
      hg 11 (by norm_num), hg 12 (by norm_num)]

/-! ## Scan-loop unrolling lemmas -/

/-- Unrolling `scan_loop` over `k` identical well-behaved discovery events
when the cap `c` is reached within those events: the loop returns as soon as
the accumulated length reaches `c`, issuing no stop-scan call. -/
theorem scan_loop_replicate_cap (env : Env) (i c : Nat) (p : PeripheralEnv) (pr : Props)
    (d : Device) (hp : env.peripheral i = .ok p) (hprops : p.props = .ok (some pr))
    (hsvc : ARANET4_SERVICE ∈ pr.services) (hdev : get_device p = .ok d) :
    ∀ (k : Nat) (devices : List Device), devices.length < c → c ≤ devices.length + k →
      scan_loop env (some c) (List.replicate k (CentralEvent.deviceDiscovered i)) devices =
        (.ok (devices ++ List.replicate (c - devices.length) d), []) := by
  intro k
  induction k with
  | zero => intro devices h1 h2; omega
  | succ k ih =>
    intro devices h1 h2
    rw [List.replicate_succ]
    simp only [scan_loop, hp, get_services, hprops]
    rw [if_pos hsvc, hdev]
    simp only []
    rcases Nat.lt_or_ge (devices.length + 1) c with hlt | hge
    · have hcap : cap_reached (some c) (devices ++ [d]).length = false := by
        refine cap_reached_false ?_
        simp only [List.length_append, List.length_singleton]
        omega
      rw [if_neg (by rw [hcap]; simp)]
      rw [ih (devices ++ [d]) (by simp only [List.length_append, List.length_singleton]; omega)
        (by simp only [List.length_append, List.length_singleton]; omega)]
      simp only [List.length_append, List.length_singleton]
      rw [show c - devices.length = (c - (devices.length + 1)) + 1 from by omega,
        List.replicate_succ, List.append_assoc]
      rfl
    · have hcap : cap_reached (some c) (devices ++ [d]).length = true := by
        refine cap_reached_true ?_
        simp only [List.length_append, List.length_singleton]
        omega
      rw [if_pos hcap]
      rw [show c - devices.length = 1 from by omega]
      rfl

/-- Unrolling `scan_loop` over `k` identical well-behaved discovery events
when the cap is never reached: the loop drains the event list, stops the scan,
and returns all `k` assembled devices. -/
theorem scan_loop_replicate_timeout (env : Env) (i c : Nat) (p : PeripheralEnv) (pr : Props)
    (d : Device) (hp : env.peripheral i = .ok p) (hprops : p.props = .ok (some pr))
    (hsvc : ARANET4_SERVICE ∈ pr.services) (hdev : get_device p = .ok d)
    (hstop : env.stopScan = .ok ()) :
    ∀ (k : Nat) (devices : List Device), devices.length + k < c →
      scan_loop env (some c) (List.replicate k (CentralEvent.deviceDiscovered i)) devices =
        (.ok (devices ++ List.replicate k d), [Call.stopScan]) := by
  intro k
  induction k with
  | zero =>
    intro devices h
    simp only [List.replicate, scan_loop, hstop, List.append_nil]
  | succ k ih =>
    intro devices h
    rw [List.replicate_succ]
    simp only [scan_loop, hp, get_services, hprops]
    rw [if_pos hsvc, hdev]
    simp only []
    have hcap : cap_reached (some c) (devices ++ [d]).length = false := by
      refine cap_reached_false ?_
      simp only [List.length_append, List.length_singleton]
      omega
    rw [if_neg (by rw [hcap]; simp)]
    rw [ih (devices ++ [d]) (by simp only [List.length_append, List.length_singleton]; omega)]
    rw [List.replicate_succ, List.append_assoc]
    rfl

/-- Witness for `decode_data_extra_bytes` at the worked example payload with
two extra bytes appended. -/
theorem decode_data_extra_bytes_witness :
    (decode_data [0xD2, 0x02, 0x58, 0x02, 0x50, 0x03, 0x28, 0x64, 0x01, 0x3C, 0x00, 0x05,
        0x00]).isOk = true ∧
      decode_data ([0xD2, 0x02, 0x58, 0x02, 0x50, 0x03, 0x28, 0x64, 0x01, 0x3C, 0x00, 0x05,
          0x00] ++ [0xAA, 0x55]) =
        decode_data [0xD2, 0x02, 0x58, 0x02, 0x50, 0x03, 0x28, 0x64, 0x01, 0x3C, 0x00, 0x05,
          0x00] :=
  decode_data_extra_bytes _ [0xAA, 0x55] (by decide) (by decide)

/-! ## Scan controller claims -/

/-- Claim C1, counterexample: one well-behaved discovery event with
`max_devices = Some(1)` reaches the cap; `get_devices` returns the one device
through the in-loop `return Ok(devices)`, and the call trace contains only
`start_scan` — no stop-scan call is issued on this exit path, contradicting
the claim that every exit stops the discovery session. -/
theorem cap_exit_no_stop_cex :
    get_devices (goodEnv [CentralEvent.deviceDiscovered 0]) (some 1) =
      (Outcome.ok [goodDevice], [Call.startScan]) := by rfl

/-- Claim C1, amended: `stop_scan` is issued only on the normal exit path
where the event stream is exhausted (deadline elapsed or stream ended) before
the cap; when the stream yields at least `cap` well-behaved discovery events
before the deadline, `get_devices` returns exactly `cap` devices but issues no
stop-scan call. -/
theorem get_devices_cap_and_timeout_stop (env : Env) (i c n : Nat) (p : PeripheralEnv)
    (pr : Props) (d : Device)
    (hmgr : env.managerNew = .ok ()) (hadapt : env.adapters = .ok [()])
    (hstart : env.startScan = .ok ()) (hevents : env.events = .ok ())
    (hev : env.eventList = List.replicate n (CentralEvent.deviceDiscovered i))
    (hp : env.peripheral i = .ok p) (hprops : p.props = .ok (some pr))
    (hsvc : ARANET4_SERVICE ∈ pr.services) (hdev : get_device p = .ok d)
    (hstop : env.stopScan = .ok ()) (hc : 1 ≤ c) :
    (c ≤ n → get_devices env (some c) =
      (.ok (List.replicate c d), [Call.startScan])) ∧
    (n < c → get_devices env (some c) =
      (.ok (List.replicate n d), [Call.startScan, Call.stopScan])) := by
  have hcap0 : cap_reached (some c) 0 = false := cap_reached_false (by omega)
  constructor
  · intro hcn
    have hloop := scan_loop_replicate_cap env i c p pr d hp hprops hsvc hdev n []
      (by simpa using hc) (by simpa using hcn)
    unfold get_devices
    rw [hmgr, hadapt, hstart, hevents, hev, hcap0, hloop]
    rfl
  · intro hnc
    have hloop := scan_loop_replicate_timeout env i c p pr d hp hprops hsvc hdev hstop n []
      (by simpa using hnc)
    unfold get_devices
    rw [hmgr, hadapt, hstart, hevents, hev, hcap0, hloop]
    rfl

/-- Witness for `get_devices_cap_and_timeout_stop`: two well-behaved events
with cap 1 yield exactly one device and a trace without any stop-scan call. -/
theorem get_devices_cap_and_timeout_stop_witness :
    get_devices (goodEnv (List.replicate 2 (CentralEvent.deviceDiscovered 0))) (some 1) =
      (Outcome.ok (List.replicate 1 goodDevice), [Call.startScan]) :=
  (get_devices_cap_and_timeout_stop
    (goodEnv (List.replicate 2 (CentralEvent.deviceDiscovered 0))) 0 1 2
    goodPeripheral goodProps goodDevice rfl rfl rfl rfl rfl rfl rfl (by decide) (by rfl)
    rfl (by decide)).1 (by decide)

/-- Claim C2, counterexample: with `max_devices = Some(0)` the result is the
empty list, but the call trace contains `start_scan` — the source calls
`central.start_scan` (and `central.events`) before the early-return check, so
the scan IS started, contradicting the claim. -/
theorem zero_cap_starts_scan_cex :
    get_devices (goodEnv []) (some 0) = (Outcome.ok [], [Call.startScan]) := by rfl

/-- Claim C2, amended: for every environment (hence every timeout and every
event stream), `max_devices = Some(0)` returns the empty device list without
consuming any discovery event, but only after the adapter's scan-start has
been invoked; no stop-scan call is issued. -/
theorem get_devices_zero_cap (env : Env) (adl : List Unit)
    (hmgr : env.managerNew = .ok ()) (hadapt : env.adapters = .ok adl) (hne : adl ≠ [])
    (hstart : env.startScan = .ok ()) (hevents : env.events = .ok ()) :
    get_devices env (some 0) = (.ok [], [Call.startScan]) := by
  cases adl with
  | nil => exact absurd rfl hne
  | cons a t =>
    unfold get_devices
    rw [hmgr, hadapt, hstart, hevents]
    rfl

/-- Witness for `get_devices_zero_cap` at an environment with a pending
(non-discovery) event. -/
theorem get_devices_zero_cap_witness :
    get_devices (goodEnv [CentralEvent.other]) (some 0) =
      (Outcome.ok [], [Call.startScan]) :=
  get_devices_zero_cap (goodEnv [CentralEvent.other]) [()] rfl rfl (by decide) rfl rfl

/-- Claim C6, counterexample: when adapter enumeration succeeds with an empty
list (no usable adapter), `get_devices` panics
(`adapters.into_iter().next().unwrap()` on `None`) — it does not surface an
error value. -/
theorem no_adapter_panics_cex : get_devices noAdapterEnv none = (Outcome.panicked, []) := by
  rfl

/-- Claim C6, amended: when adapter enumeration succeeds but yields no
adapter, `get_devices` panics (`unwrap` of `None`) rather than returning an
`AdapterUnavailable`-style error; when adapter enumeration itself fails, that
error is surfaced immediately (before any scan is started) and is not
retried. -/
theorem get_devices_adapter_cases (env : Env) (max_devices : Option Nat)
    (hmgr : env.managerNew = .ok ()) :
    (env.adapters = .ok [] → get_devices env max_devices = (.panicked, [])) ∧
    (∀ e : Nat, env.adapters = .error e → get_devices env max_devices = (.err e, [])) := by
  constructor
  · intro h
    unfold get_devices
    rw [hmgr, h]
  · intro e h
    unfold get_devices
    rw [hmgr, h]

/-- Witness for `get_devices_adapter_cases` at concrete environments. -/
theorem get_devices_adapter_cases_witness :
    get_devices noAdapterEnv none = (Outcome.panicked, []) ∧
      get_devices adapterErrEnv none = (Outcome.err 7, []) :=
  ⟨(get_devices_adapter_cases noAdapterEnv none rfl).1 rfl,
   (get_devices_adapter_cases adapterErrEnv none rfl).2 7 rfl⟩

/-- Claim C7, counterexample: a discovered device that advertises the Aranet4
service but exposes no data characteristic makes `get_devices` panic
(`find(..).unwrap()` on `None`) — the invocation does not return a terminal
error value, contradicting the claim that a missing data characteristic
surfaces as an error. -/
theorem missing_data_char_panics_cex :
    get_devices noDataCharEnv none = (Outcome.panicked, [Call.startScan]) := by rfl

/-- Claim C7, amended: a transport failure while starting the scan, while
connecting, or while reading the data characteristic aborts the whole
invocation with that single error and no partial result list — devices
accumulated before the failure are discarded; but a missing data
characteristic on a device that advertises the sensor service causes a panic
(`unwrap` of a failed `find`), not an error return. -/
theorem scan_error_propagation :
    (∀ (env : Env) (e : Nat) (max_devices : Option Nat), env.managerNew = .ok () →
      env.adapters = .ok [()] → env.startScan = .error e →
      get_devices env max_devices = (.err e, [Call.startScan])) ∧
    (∀ (env : Env) (i j e : Nat) (p1 p2 : PeripheralEnv) (pr1 pr2 : Props) (d : Device),
      env.managerNew = .ok () → env.adapters = .ok [()] → env.startScan = .ok () →
      env.events = .ok () →
      env.eventList = [CentralEvent.deviceDiscovered i, CentralEvent.deviceDiscovered j] →
      env.peripheral i = .ok p1 → p1.props = .ok (some pr1) →
      ARANET4_SERVICE ∈ pr1.services → get_device p1 = .ok d →
      env.peripheral j = .ok p2 → p2.props = .ok (some pr2) →
      ARANET4_SERVICE ∈ pr2.services → p2.connect = .error e →
      get_devices env none = (.err e, [Call.startScan])) ∧
    (∀ (p : PeripheralEnv) (e : Nat) (nm : String) (pr : Props),
      p.connect = .ok () → p.discover_services = .ok () → p.props = .ok (some pr) →
      pr.local_name = some nm → ARANET4_CHARACTERISTIC ∈ p.characteristics →
      p.read ARANET4_CHARACTERISTIC = .error e →
      get_device p = .err e) ∧
    (∀ (p : PeripheralEnv) (nm : String) (pr : Props),
      p.connect = .ok () → p.discover_services = .ok () → p.props = .ok (some pr) →
      pr.local_name = some nm → ARANET4_CHARACTERISTIC ∉ p.characteristics →
      get_device p = .panicked) := by
  refine ⟨?_, ?_, ?_, ?_⟩
  · intro env e max_devices hmgr hadapt hstart
    unfold get_devices
    rw [hmgr, hadapt, hstart]
  · intro env i j e p1 p2 pr1 pr2 d hmgr hadapt hstart hevents hev hp1 hpr1 hsvc1 hdev1
      hp2 hpr2 hsvc2 hconn
    have h2 : get_device p2 = Outcome.err e := by
      unfold get_device
      rw [hconn]
    have step1 : scan_loop env none
        [CentralEvent.deviceDiscovered i, CentralEvent.deviceDiscovered j] [] =
        (Outcome.err e, []) := by
      simp only [scan_loop, hp1, hp2, get_services, hpr1, hpr2]
      rw [if_pos hsvc1, hdev1]
      simp only []
      rw [if_neg (by rw [cap_reached_none]; simp)]
      rw [if_pos hsvc2, h2]
    unfold get_devices
    rw [hmgr, hadapt, hstart, hevents, hev, step1]
    rfl
  · intro p e nm pr hconn hdisc hprops hname hmem hread
    have hn : get_name p = .ok nm := by
      simp only [get_name, hprops, hname]
    have hd : get_data p = .err e := by
      unfold get_data
      rw [if_pos hmem, hread]
    unfold get_device
    rw [hconn, hdisc, hn, hd]
  · intro p nm pr hconn hdisc hprops hname hmem
    have hn : get_name p = .ok nm := by
      simp only [get_name, hprops, hname]
    have hd : get_data p = Outcome.panicked := by
      unfold get_data
      rw [if_neg hmem]
    unfold get_device
    rw [hconn, hdisc, hn, hd]

/-- Witness for `scan_error_propagation` at concrete environments and
peripherals: a failing scan start, a failing connect after one accumulated
device, a failing data-characteristic read, and a missing data
characteristic. -/
theorem scan_error_propagation_witness :
    get_devices startErrEnv none = (Outcome.err 2, [Call.startScan]) ∧
      get_devices twoEventEnv none = (Outcome.err 3, [Call.startScan]) ∧
      get_device readErrPeripheral = Outcome.err 4 ∧
      get_device noDataCharPeripheral = Outcome.panicked :=
  ⟨scan_error_propagation.1 startErrEnv 2 none rfl rfl rfl,
   scan_error_propagation.2.1 twoEventEnv 0 1 3 goodPeripheral connectErrPeripheral
     goodProps goodProps goodDevice rfl rfl rfl rfl rfl rfl rfl (by decide) (by rfl)
     rfl rfl (by decide) rfl,
   scan_error_propagation.2.2.1 readErrPeripheral 4 "Aranet4 00000" goodProps
     rfl rfl rfl rfl (by decide) rfl,
   scan_error_propagation.2.2.2 noDataCharPeripheral "Aranet4 00000" goodProps
     rfl rfl rfl rfl (by decide)⟩

/-- Claim C8: in an environment where no discovery event arrives before the
deadline (the event list is empty) and the closing `stop_scan` succeeds,
`get_devices` terminates normally with `Ok` of the empty list — a timeout is
not an error. -/
theorem get_devices_timeout_empty (env : Env) (max_devices : Option Nat) (adl : List Unit)
    (hmgr : env.managerNew = .ok ()) (hadapt : env.adapters = .ok adl) (hne : adl ≠ [])
    (hstart : env.startScan = .ok ()) (hevents : env.events = .ok ())
    (hev : env.eventList = []) (hstop : env.stopScan = .ok ()) :
    (get_devices env max_devices).1 = .ok [] := by
  cases adl with
  | nil => exact absurd rfl hne
  | cons a t =>
    have hloop : scan_loop env max_devices [] [] = (.ok [], [Call.stopScan]) := by
      simp only [scan_loop, hstop]
    unfold get_devices
    rw [hmgr, hadapt, hstart, hevents, hev, hloop]
    by_cases hcap : cap_reached max_devices 0 = true
    · rw [if_pos hcap]
    · rw [if_neg hcap]

/-- Witness for `get_devices_timeout_empty` at a concrete environment with no
events and no cap. -/
theorem get_devices_timeout_empty_witness :
    (get_devices (goodEnv []) none).1 = Outcome.ok [] :=
  get_devices_timeout_empty (goodEnv []) none [()] rfl rfl (by decide) rfl rfl rfl rfl

/-! ## Device info collector claim -/

/-- Invariant of the `get_info` characteristic loop: running it over any
suffix `chars` of the exposed characteristics (with all reads of recognized
UUIDs succeeding) updates exactly the fields whose UUID occurs in `chars` and
leaves every other field of the accumulator untouched. -/
theorem get_info_go_spec (p : PeripheralEnv) (f : Uuid → List Nat)
    (hread : ∀ u, info_recognized u = true → u ∈ p.characteristics →
      p.read u = .ok (f u)) :
    ∀ (chars : List Uuid), (∀ u ∈ chars, u ∈ p.characteristics) → ∀ (info : Info),
      get_info_go p chars info = .ok
        { model_number :=
            if BLUETOOTH_MODEL_NUMBER_CHARACTERISTIC ∈ chars
            then some (f BLUETOOTH_MODEL_NUMBER_CHARACTERISTIC) else info.model_number,
          serial_number :=
            if BLUETOOTH_SERIAL_NUMBER_CHARACTERISTIC ∈ chars
            then some (f BLUETOOTH_SERIAL_NUMBER_CHARACTERISTIC) else info.serial_number,
          firmware_revision :=
            if BLUETOOTH_FIRMWARE_REVISION_CHARACTERISTIC ∈ chars
            then some (f BLUETOOTH_FIRMWARE_REVISION_CHARACTERISTIC)
            else info.firmware_revision,
          hardware_revision :=
            if BLUETOOTH_HARDWARE_REVISION_CHARACTERISTIC ∈ chars
            then some (f BLUETOOTH_HARDWARE_REVISION_CHARACTERISTIC)
            else info.hardware_revision,
          software_revision :=
            if BLUETOOTH_SOFTWARE_REVISION_CHARACTERISTIC ∈ chars
            then some (f BLUETOOTH_SOFTWARE_REVISION_CHARACTERISTIC)
            else info.software_revision,
          manufacturer_name :=
            if BLUETOOTH_MANUFACTURER_NAME_CHARACTERISTIC ∈ chars
            then some (f BLUETOOTH_MANUFACTURER_NAME_CHARACTERISTIC)
            else info.manufacturer_name } := by
  intro chars
  induction chars with
  | nil =>
    intro _ info
    simp [get_info_go]
  | cons u rest ih =>
    intro hsub info
    have hsubr : ∀ v ∈ rest, v ∈ p.characteristics := fun v hv =>
      hsub v (List.mem_cons_of_mem u hv)
    have hmemu : u ∈ p.characteristics := hsub u (List.mem_cons_self u rest)
    by_cases h1 : u = BLUETOOTH_MODEL_NUMBER_CHARACTERISTIC
    · have hrd : p.read u = .ok (f u) := hread u (by simp [info_recognized, h1]) hmemu
      subst h1
      simp only [get_info_go, if_pos rfl]
      rw [hrd]
      simp only []
      rw [ih hsubr]
      simp [List.mem_cons, ite_self, BLUETOOTH_MODEL_NUMBER_CHARACTERISTIC,
        BLUETOOTH_SERIAL_NUMBER_CHARACTERISTIC, BLUETOOTH_FIRMWARE_REVISION_CHARACTERISTIC,
        BLUETOOTH_HARDWARE_REVISION_CHARACTERISTIC, BLUETOOTH_SOFTWARE_REVISION_CHARACTERISTIC,
        BLUETOOTH_MANUFACTURER_NAME_CHARACTERISTIC]
    · by_cases h2 : u = BLUETOOTH_SERIAL_NUMBER_CHARACTERISTIC
      · have hrd : p.read u = .ok (f u) := hread u (by simp [info_recognized, h2]) hmemu
        subst h2
        simp only [get_info_go, if_neg h1, if_pos rfl]
        rw [hrd]
        simp only []
        rw [ih hsubr]
        simp [List.mem_cons, ite_self, BLUETOOTH_MODEL_NUMBER_CHARACTERISTIC,
          BLUETOOTH_SERIAL_NUMBER_CHARACTERISTIC, BLUETOOTH_FIRMWARE_REVISION_CHARACTERISTIC,
          BLUETOOTH_HARDWARE_REVISION_CHARACTERISTIC,
          BLUETOOTH_SOFTWARE_REVISION_CHARACTERISTIC,
          BLUETOOTH_MANUFACTURER_NAME_CHARACTERISTIC]
      · by_cases h3 : u = BLUETOOTH_FIRMWARE_REVISION_CHARACTERISTIC
        · have hrd : p.read u = .ok (f u) := hread u (by simp [info_recognized, h3]) hmemu
          subst h3
          simp only [get_info_go, if_neg h1, if_neg h2, if_pos rfl]
          rw [hrd]
          simp only []
          rw [ih hsubr]
          simp [List.mem_cons, ite_self, BLUETOOTH_MODEL_NUMBER_CHARACTERISTIC,
            BLUETOOTH_SERIAL_NUMBER_CHARACTERISTIC,
            BLUETOOTH_FIRMWARE_REVISION_CHARACTERISTIC,
            BLUETOOTH_HARDWARE_REVISION_CHARACTERISTIC,
            BLUETOOTH_SOFTWARE_REVISION_CHARACTERISTIC,
            BLUETOOTH_MANUFACTURER_NAME_CHARACTERISTIC]
        · by_cases h4 : u = BLUETOOTH_HARDWARE_REVISION_CHARACTERISTIC
          · have hrd : p.read u = .ok (f u) := hread u (by simp [info_recognized, h4]) hmemu
            subst h4
            simp only [get_info_go, if_neg h1, if_neg h2, if_neg h3, if_pos rfl]
            rw [hrd]
            simp only []
            rw [ih hsubr]
            simp [List.mem_cons, ite_self, BLUETOOTH_MODEL_NUMBER_CHARACTERISTIC,
              BLUETOOTH_SERIAL_NUMBER_CHARACTERISTIC,
              BLUETOOTH_FIRMWARE_REVISION_CHARACTERISTIC,
              BLUETOOTH_HARDWARE_REVISION_CHARACTERISTIC,
              BLUETOOTH_SOFTWARE_REVISION_CHARACTERISTIC,
              BLUETOOTH_MANUFACTURER_NAME_CHARACTERISTIC]
          · by_cases h5 : u = BLUETOOTH_SOFTWARE_REVISION_CHARACTERISTIC
            · have hrd : p.read u = .ok (f u) :=
                hread u (by simp [info_recognized, h5]) hmemu
              subst h5
              simp only [get_info_go, if_neg h1, if_neg h2, if_neg h3, if_neg h4,
                if_pos rfl]
              rw [hrd]
              simp only []
              rw [ih hsubr]
              simp [List.mem_cons, ite_self, BLUETOOTH_MODEL_NUMBER_CHARACTERISTIC,
                BLUETOOTH_SERIAL_NUMBER_CHARACTERISTIC,
                BLUETOOTH_FIRMWARE_REVISION_CHARACTERISTIC,
                BLUETOOTH_HARDWARE_REVISION_CHARACTERISTIC,
                BLUETOOTH_SOFTWARE_REVISION_CHARACTERISTIC,
                BLUETOOTH_MANUFACTURER_NAME_CHARACTERISTIC]
            · by_cases h6 : u = BLUETOOTH_MANUFACTURER_NAME_CHARACTERISTIC
              · have hrd : p.read u = .ok (f u) :=
                  hread u (by simp [info_recognized, h6]) hmemu
                subst h6
                simp only [get_info_go, if_neg h1, if_neg h2, if_neg h3, if_neg h4,
                  if_neg h5, if_pos rfl]
                rw [hrd]
                simp only []
                rw [ih hsubr]
                simp [List.mem_cons, ite_self, BLUETOOTH_MODEL_NUMBER_CHARACTERISTIC,
                  BLUETOOTH_SERIAL_NUMBER_CHARACTERISTIC,
                  BLUETOOTH_FIRMWARE_REVISION_CHARACTERISTIC,
                  BLUETOOTH_HARDWARE_REVISION_CHARACTERISTIC,
                  BLUETOOTH_SOFTWARE_REVISION_CHARACTERISTIC,
                  BLUETOOTH_MANUFACTURER_NAME_CHARACTERISTIC]
              · simp only [get_info_go, if_neg h1, if_neg h2, if_neg h3, if_neg h4,
                  if_neg h5, if_neg h6]
                rw [ih hsubr]
                simp [List.mem_cons, Ne.symm h1, Ne.symm h2, Ne.symm h3, Ne.symm h4,
                  Ne.symm h5, Ne.symm h6]

/-- Claim C9: when every exposed recognized characteristic reads successfully,
`get_info` returns (without error) an `Info` whose fields are populated for
exactly the recognized device-information UUIDs present in the exposed set —
absent recognized UUIDs give `None`, and unrecognized UUIDs are ignored. -/
theorem get_info_populates (p : PeripheralEnv) (f : Uuid → List Nat)
    (hread : ∀ u, info_recognized u = true → u ∈ p.characteristics →
      p.read u = .ok (f u)) :
    get_info p = .ok
      { model_number :=
          if BLUETOOTH_MODEL_NUMBER_CHARACTERISTIC ∈ p.characteristics
          then some (f BLUETOOTH_MODEL_NUMBER_CHARACTERISTIC) else none,
        serial_number :=
          if BLUETOOTH_SERIAL_NUMBER_CHARACTERISTIC ∈ p.characteristics
          then some (f BLUETOOTH_SERIAL_NUMBER_CHARACTERISTIC) else none,
        firmware_revision :=
          if BLUETOOTH_FIRMWARE_REVISION_CHARACTERISTIC ∈ p.characteristics
          then some (f BLUETOOTH_FIRMWARE_REVISION_CHARACTERISTIC) else none,
        hardware_revision :=
          if BLUETOOTH_HARDWARE_REVISION_CHARACTERISTIC ∈ p.characteristics
          then some (f BLUETOOTH_HARDWARE_REVISION_CHARACTERISTIC) else none,
        software_revision :=
          if BLUETOOTH_SOFTWARE_REVISION_CHARACTERISTIC ∈ p.characteristics
          then some (f BLUETOOTH_SOFTWARE_REVISION_CHARACTERISTIC) else none,
        manufacturer_name :=
          if BLUETOOTH_MANUFACTURER_NAME_CHARACTERISTIC ∈ p.characteristics
          then some (f BLUETOOTH_MANUFACTURER_NAME_CHARACTERISTIC) else none } :=
  get_info_go_spec p f hread p.characteristics (fun _ h => h) {}

/-- Witness for `get_info_populates`: a device exposing two of the six
recognized characteristics yields an `Info` with exactly those two fields
populated and the other four empty, with no error. -/
theorem get_info_populates_witness :
    get_info infoPeripheral = .ok
      { serial_number := some [65, 66], firmware_revision := some [65, 66] } := by
  have h := get_info_populates infoPeripheral (fun _ => [65, 66]) (fun u h1 h2 => rfl)
  rw [h]
  rfl

end Aranet4
